import Mathlib

/-!
Shallow embedding of the two scripts of this repository,
`src/chatbot.py` (the Chat Client) and `src/list_models.py` (the Model
Lister), as pure Lean functions producing traces of observable events
(printed lines, remote-call attempts, fatal startup errors).  The remote
generative-language API is modelled as an oracle parameter: for the chat
loop, a function from the current conversation session and the message
text to either a reply or a failure description; for the lister, the
catalog handed back by `genai.list_models()`, each element of which may
itself raise when the lazy enumeration reaches it.
-/

namespace TandaChat

/-- Outcome of one remote `send_message` call: either a textual reply
(`response.text`) or a raised exception carrying a description. -/
inductive RemoteResult where
  | reply (text : String)
  | failure (desc : String)
deriving Repr, DecidableEq

/-- Observable events of a script run: a line printed to stdout, an
attempted remote call, or a fatal uncaught startup error (the
`raise ValueError` in `chatbot.py`). -/
inductive Event where
  | printLine (s : String)
  | remoteCall (msg : String)
  | fatal (msg : String)
deriving Repr, DecidableEq

/-- The delimiter both scripts print: `"-" * 50` in Python. -/
def delim : String := String.mk (List.replicate 50 '-')

/-- The exit keywords of `chatbot.py`: `['quit', 'exit', 'bye']`. -/
def exitKeywords : List String := ["quit", "exit", "bye"]

/-- Python truthiness of `os.getenv` results: `not API_KEY` is `True`
exactly when the variable is absent (`None`) or the empty string. -/
def pyFalsy : Option String → Bool
  | none => true
  | some s => s = ""

/-- The message of the `ValueError` raised by `chatbot.py` when the
credential is missing. -/
def keyErrorMsg : String := "GEMINI_API_KEY not found. Please add it to your .env file"

/-- The characters Python's `str.strip()` removes (the ASCII whitespace
characters; the scripts' keywords and prompts are ASCII throughout). -/
def pyIsSpace (c : Char) : Bool :=
  c = ' ' || c = '\t' || c = '\n' || c = '\r' || c = '\x0b' || c = '\x0c'

/-- Python `str.strip()`: remove leading and trailing whitespace. -/
def pyStrip (s : String) : String :=
  String.mk (((s.data.dropWhile pyIsSpace).reverse.dropWhile pyIsSpace).reverse)

/-- ASCII lowercasing of one character, as Python `str.lower()` acts on
the ASCII inputs relevant here. -/
def pyLowerChar (c : Char) : Char :=
  if 'A' ≤ c ∧ c ≤ 'Z' then Char.ofNat (c.toNat + 32) else c

/-- Python `str.lower()`. -/
def pyLower (s : String) : String := String.mk (s.data.map pyLowerChar)

/-- The conversation session handle: the (remote-side) ordered list of
(user text, model reply) turns accumulated by `chat_session`. -/
abbrev Session := List (String × String)

/-- One iteration of the `while True` loop of `chat()` in
`src/chatbot.py`, lines 47-63.  The raw input line is stripped
(`input("\nYou: ").strip()`); if its lowercasing is one of the exit
keywords the farewell is printed and the loop breaks; if it is empty the
loop continues without contacting the remote service; otherwise
`chat_session.send_message(user_input)` is attempted inside
`try/except`, printing the reply on success and the error on failure.
Returns the session after the turn, the events of the iteration, and
whether the loop continues. -/
def chatIteration (sess : Session) (line : String)
    (remote : Session → String → RemoteResult) : Session × List Event × Bool :=
  let user_input := pyStrip line
  if pyLower user_input ∈ exitKeywords then
    (sess, [Event.printLine "Goodbye!"], false)
  else if user_input = "" then
    (sess, [], true)
  else
    match remote sess user_input with
    | RemoteResult.reply t =>
        (sess ++ [(user_input, t)],
         [Event.remoteCall user_input, Event.printLine ("\nBot: " ++ t)], true)
    | RemoteResult.failure d =>
        (sess, [Event.remoteCall user_input, Event.printLine ("\nError: " ++ d)], true)

/-- The `while True` loop of `chat()`, run over a finite list of input
lines (the loop also ends when input is exhausted). -/
def chatLoop (remote : Session → String → RemoteResult) :
    Session → List String → List Event
  | _, [] => []
  | sess, line :: rest =>
      match chatIteration sess line remote with
      | (sess2, evs, cont) =>
          evs ++ (if cont then chatLoop remote sess2 rest else [])

/-- The greeting printed at the top of `chat()`. -/
def chatbotHeader : List Event :=
  [Event.printLine "Crypto Wallet Assistant (type 'quit' to exit)",
   Event.printLine "Ask me anything about cryptocurrency and digital wallets!",
   Event.printLine delim]

/-- A whole run of `src/chatbot.py`: at import time the script reads
`GEMINI_API_KEY` and raises `ValueError` when it is falsy (absent or
empty), before `genai.configure`, before the model is constructed and
before `chat()` is called; otherwise the chat loop runs over the input
lines starting from an empty session (`start_chat(history=[])`). -/
def chatbotRun (env : Option String) (lines : List String)
    (remote : Session → String → RemoteResult) : List Event :=
  if pyFalsy env then [Event.fatal keyErrorMsg]
  else chatbotHeader ++ chatLoop remote [] lines

/-- The two loop states of the chat client. -/
inductive LoopState where
  | Running
  | Terminated
deriving Repr, DecidableEq

/-- The loop-state transition induced by one input line: `Terminated`
is absorbing (after `break` no further iteration runs), and from
`Running` the next state is read off the continue flag of
`chatIteration`. -/
def chatStepState (s : LoopState) (sess : Session) (line : String)
    (remote : Session → String → RemoteResult) : LoopState :=
  match s with
  | LoopState.Terminated => LoopState.Terminated
  | LoopState.Running =>
      if (chatIteration sess line remote).2.2 then LoopState.Running
      else LoopState.Terminated

/-- A model catalog entry as consumed by `src/list_models.py`: `name`,
`display_name` and `supported_generation_methods`. -/
structure ModelDescriptor where
  name : String
  display_name : String
  supported_generation_methods : List String
deriving Repr, DecidableEq

/-- Python `repr` of a string as it appears inside a printed list
(quoting only; the method names involved need no escaping). -/
def pyStrRepr (s : String) : String := "'" ++ s ++ "'"

/-- Python `repr` of a list of strings, as printed by
`print(f"Methods: {model.supported_generation_methods}")`. -/
def pyListRepr (xs : List String) : String :=
  "[" ++ String.intercalate ", " (xs.map pyStrRepr) ++ "]"

/-- The membership test of the lister's `if` statement:
`'generateContent' in model.supported_generation_methods`. -/
def supportsGenerateContent (m : ModelDescriptor) : Bool :=
  m.supported_generation_methods.contains "generateContent"

/-- The four lines printed for one matching model: name, display name,
the full supported-methods list, and the delimiter. -/
def modelBlock (m : ModelDescriptor) : List Event :=
  [Event.printLine ("Name: " ++ m.name),
   Event.printLine ("Display: " ++ m.display_name),
   Event.printLine ("Methods: " ++ pyListRepr m.supported_generation_methods),
   Event.printLine delim]

/-- The `for model in genai.list_models():` loop, lines 10-15 of
`src/list_models.py`.  The lazy iterator is modelled as a list whose
elements may themselves be failures (a failure raised mid-enumeration):
iteration stops at the first failing element, keeps the output produced
so far, and propagates the error; there is no `try/except` anywhere in
the script. -/
def listerLoop : List (Except String ModelDescriptor) → List Event × Except String Unit
  | [] => ([], Except.ok ())
  | Except.error e :: _ => ([], Except.error e)
  | Except.ok m :: rest =>
      let p := listerLoop rest
      ((if supportsGenerateContent m then modelBlock m else []) ++ p.1, p.2)

/-- The output the lister produces before touching any model: the fixed
header line, one delimiter line, and then the remote catalog request
(`genai.list_models()`). -/
def listerHeader : List Event :=
  [Event.printLine "Available models:", Event.printLine delim,
   Event.remoteCall "list_models"]

/-- A whole run of `src/list_models.py`.  The script passes
`os.getenv('GEMINI_API_KEY')` (possibly `None`) straight to the external
`genai.configure`, which merely records the key and performs no
validation, so the credential value (`env`) has no effect on the trace:
the script's own control flow contains no credential check.  The catalog
argument is `Except.error e` when the `genai.list_models()` request
itself raises, otherwise the (possibly mid-way-failing) iterator. -/
def listModelsRun (env : Option String)
    (catalog : Except String (List (Except String ModelDescriptor))) :
    List Event × Except String Unit :=
  match env, catalog with
  | _, Except.error e => (listerHeader, Except.error e)
  | _, Except.ok items =>
      let p := listerLoop items
      (listerHeader ++ p.1, p.2)

/-- The lines printed to stdout during a trace. -/
def printedLines (evs : List Event) : List String :=
  evs.filterMap (fun e =>
    match e with
    | Event.printLine s => some s
    | _ => none)

/-- Count of printed model blocks in a lister-body trace: each block
ends with exactly one delimiter line. -/
def blockCount (evs : List Event) : Nat := evs.count (Event.printLine delim)

/-- A concrete three-model catalog of which exactly two models support
content generation. -/
def exampleCatalog : List ModelDescriptor :=
  [⟨"models/gemini-2.5-flash", "Gemini 2.5 Flash", ["generateContent", "countTokens"]⟩,
   ⟨"models/embedding-001", "Embedding 001", ["embedContent"]⟩,
   ⟨"models/gemini-2.5-pro", "Gemini 2.5 Pro", ["generateContent"]⟩]

theorem listerLoop_map_ok (xs : List ModelDescriptor) :
    listerLoop (xs.map Except.ok) =
      (((xs.filter supportsGenerateContent).map modelBlock).flatten, Except.ok ()) := by
  induction xs with
  | nil => rfl
  | cons m rest ih =>
      simp only [List.map_cons, listerLoop, List.filter_cons]
      by_cases h : supportsGenerateContent m <;> simp [h, ih]

theorem listerLoop_mid_error (e : String) (pre : List ModelDescriptor)
    (post : List (Except String ModelDescriptor)) :
    listerLoop (pre.map Except.ok ++ Except.error e :: post) =
      (((pre.filter supportsGenerateContent).map modelBlock).flatten, Except.error e) := by
  induction pre with
  | nil => rfl
  | cons m rest ih =>
      simp only [List.map_cons, List.cons_append, listerLoop, List.filter_cons]
      by_cases h : supportsGenerateContent m <;> simp [h, ih]

theorem chatIteration_exit (sess : Session) (line : String)
    (remote : Session → String → RemoteResult)
    (h : pyLower (pyStrip line) ∈ exitKeywords) :
    chatIteration sess line remote = (sess, [Event.printLine "Goodbye!"], false) := by
  simp only [chatIteration]
  rw [if_pos h]

theorem chatIteration_empty (sess : Session) (line : String)
    (remote : Session → String → RemoteResult)
    (h0 : pyStrip line = "") :
    chatIteration sess line remote = (sess, [], true) := by
  have hx : ¬(pyLower "" ∈ exitKeywords) := by decide
  simp only [chatIteration]
  rw [h0, if_neg hx, if_pos rfl]

theorem chatIteration_reply (sess : Session) (line : String)
    (remote : Session → String → RemoteResult) (t : String)
    (h1 : pyStrip line ≠ "") (h2 : pyLower (pyStrip line) ∉ exitKeywords)
    (hr : remote sess (pyStrip line) = RemoteResult.reply t) :
    chatIteration sess line remote =
      (sess ++ [(pyStrip line, t)],
       [Event.remoteCall (pyStrip line), Event.printLine ("\nBot: " ++ t)], true) := by
  simp only [chatIteration]
  rw [if_neg h2, if_neg h1, hr]

theorem chatIteration_failure (sess : Session) (line : String)
    (remote : Session → String → RemoteResult) (d : String)
    (h1 : pyStrip line ≠ "") (h2 : pyLower (pyStrip line) ∉ exitKeywords)
    (hr : remote sess (pyStrip line) = RemoteResult.failure d) :
    chatIteration sess line remote =
      (sess, [Event.remoteCall (pyStrip line), Event.printLine ("\nError: " ++ d)], true) := by
  simp only [chatIteration]
  rw [if_neg h2, if_neg h1, hr]

/-- Claim C3: exit keyword input prints the farewell and terminates the loop
with no remote call. -/
theorem exit_keyword_farewell_no_call (sess : Session) (line : String)
    (remote : Session → String → RemoteResult)
    (h : pyLower (pyStrip line) ∈ exitKeywords) :
    chatIteration sess line remote = (sess, [Event.printLine "Goodbye!"], false) :=
  chatIteration_exit sess line remote h

theorem exit_keyword_farewell_no_call_witness :
    chatIteration [] "  QUIT " (fun _ _ => RemoteResult.reply "hi") =
      ([], [Event.printLine "Goodbye!"], false) :=
  exit_keyword_farewell_no_call [] "  QUIT " (fun _ _ => RemoteResult.reply "hi") (by decide)

/-- Claim C6: empty/whitespace input issues no remote call, loop continues. -/
theorem empty_input_no_call_loop_continues (sess : Session) (line : String)
    (remote : Session → String → RemoteResult)
    (h : pyStrip line = "") :
    chatIteration sess line remote = (sess, [], true) :=
  chatIteration_empty sess line remote h

theorem empty_input_no_call_loop_continues_witness :
    chatIteration [] "   " (fun _ _ => RemoteResult.reply "hi") = ([], [], true) :=
  empty_input_no_call_loop_continues [] "   " (fun _ _ => RemoteResult.reply "hi") (by decide)

/-- Claim C2: one remote call, one print (reply or error), never both/neither. -/
theorem chat_turn_one_call_one_print (sess : Session) (line : String)
    (remote : Session → String → RemoteResult)
    (h1 : pyStrip line ≠ "") (h2 : pyLower (pyStrip line) ∉ exitKeywords) :
    ∃ out : String,
      (chatIteration sess line remote).2.1 =
        [Event.remoteCall (pyStrip line), Event.printLine out] ∧
      ((∃ t, remote sess (pyStrip line) = RemoteResult.reply t ∧ out = "\nBot: " ++ t) ∨
       (∃ d, remote sess (pyStrip line) = RemoteResult.failure d ∧ out = "\nError: " ++ d)) := by
  cases hr : remote sess (pyStrip line) with
  | reply t =>
      exact ⟨"\nBot: " ++ t, by rw [chatIteration_reply sess line remote t h1 h2 hr],
        Or.inl ⟨t, rfl, rfl⟩⟩
  | failure d =>
      exact ⟨"\nError: " ++ d, by rw [chatIteration_failure sess line remote d h1 h2 hr],
        Or.inr ⟨d, rfl, rfl⟩⟩

theorem chat_turn_one_call_one_print_witness :
    ∃ out : String,
      (chatIteration [] "hello" (fun _ _ => RemoteResult.reply "hi")).2.1 =
        [Event.remoteCall (pyStrip "hello"), Event.printLine out] ∧
      ((∃ t, (fun (_ : Session) (_ : String) => RemoteResult.reply "hi") [] (pyStrip "hello") = RemoteResult.reply t ∧ out = "\nBot: " ++ t) ∨
       (∃ d, (fun (_ : Session) (_ : String) => RemoteResult.reply "hi") [] (pyStrip "hello") = RemoteResult.failure d ∧ out = "\nError: " ++ d)) :=
  chat_turn_one_call_one_print [] "hello" (fun _ _ => RemoteResult.reply "hi") (by decide) (by decide)

/-- Claim C4: a failing remote call is caught, the error is printed with its
description, the loop continues and the session is unchanged. -/
theorem remote_failure_caught_session_kept (sess : Session) (line : String)
    (remote : Session → String → RemoteResult) (d : String)
    (h1 : pyStrip line ≠ "") (h2 : pyLower (pyStrip line) ∉ exitKeywords)
    (h3 : remote sess (pyStrip line) = RemoteResult.failure d) :
    chatIteration sess line remote =
      (sess, [Event.remoteCall (pyStrip line), Event.printLine ("\nError: " ++ d)], true) :=
  chatIteration_failure sess line remote d h1 h2 h3

theorem remote_failure_caught_session_kept_witness :
    chatIteration [("hi", "hello there")] "what is gas"
        (fun _ _ => RemoteResult.failure "503 network error") =
      ([("hi", "hello there")],
       [Event.remoteCall (pyStrip "what is gas"),
        Event.printLine ("\nError: " ++ "503 network error")], true) :=
  remote_failure_caught_session_kept [("hi", "hello there")] "what is gas"
    (fun _ _ => RemoteResult.failure "503 network error") "503 network error"
    (by decide) (by decide) rfl

/-- Claim C7: the loop is a state machine on Running/Terminated where the only
transition to Terminated is an exit keyword; everything else self-loops. -/
theorem chat_loop_state_machine (sess : Session) (line : String)
    (remote : Session → String → RemoteResult) :
    (chatStepState LoopState.Running sess line remote = LoopState.Terminated ↔
      pyLower (pyStrip line) ∈ exitKeywords) ∧
    chatStepState LoopState.Terminated sess line remote = LoopState.Terminated := by
  refine ⟨?_, rfl⟩
  by_cases h : pyLower (pyStrip line) ∈ exitKeywords
  · simp [chatStepState, chatIteration_exit sess line remote h, h]
  · by_cases h0 : pyStrip line = ""
    · simp [chatStepState, chatIteration_empty sess line remote h0, h]
    · cases hr : remote sess (pyStrip line) with
      | reply t =>
          simp [chatStepState, chatIteration_reply sess line remote t h0 h hr, h]
      | failure d =>
          simp [chatStepState, chatIteration_failure sess line remote d h0 h hr, h]

/-- Claim C1 (counterexample): with the credential absent, the Model Lister does
not terminate before a remote call — its trace still prints the header and
attempts the catalog request, and the run completes normally, so the claimed
pre-remote-call fatal error does not occur in that script. -/
theorem lister_missing_key_still_calls_remote :
    listModelsRun none (Except.ok []) =
      ([Event.printLine "Available models:", Event.printLine delim,
        Event.remoteCall "list_models"], Except.ok ()) := by
  rfl

/-- Claim C1 (amended): with GEMINI_API_KEY absent the Chat Client terminates
with the descriptive ValueError before any remote call, but the Model Lister
performs no credential check and proceeds to attempt the catalog fetch. -/
theorem missing_key_fatal_in_chatbot_only (lines : List String)
    (remote : Session → String → RemoteResult) :
    chatbotRun none lines remote = [Event.fatal keyErrorMsg] ∧
    Event.remoteCall "list_models" ∈ (listModelsRun none (Except.ok [])).1 :=
  ⟨rfl, by decide⟩

/-- Claim C9: an empty-string credential is treated exactly like an absent one
by the Chat Client's falsiness check — same fatal error before any remote
interaction. -/
theorem empty_credential_same_as_absent (lines : List String)
    (remote : Session → String → RemoteResult) :
    chatbotRun (some "") lines remote = [Event.fatal keyErrorMsg] ∧
    chatbotRun (some "") lines remote = chatbotRun none lines remote :=
  ⟨rfl, rfl⟩

/-- Claim C5: the lister prints exactly one block per model supporting content
generation and none for the rest; on a concrete 3-model catalog with 2
supporting models, exactly 2 blocks appear. -/
theorem lister_one_block_per_matching_model :
    (∀ (env : Option String) (catalog : List ModelDescriptor),
      (listModelsRun env (Except.ok (catalog.map Except.ok))).1 =
        listerHeader ++ ((catalog.filter supportsGenerateContent).map modelBlock).flatten) ∧
    blockCount (listerLoop (exampleCatalog.map Except.ok)).1 = 2 := by
  constructor
  · intro env catalog
    simp [listModelsRun, listerLoop_map_ok]
  · decide

/-- Claim C8: a failure of the catalog request itself, or one raised mid-way
through the enumeration, is caught nowhere in the script and propagates out,
with no recovery of the remaining listing. -/
theorem lister_failure_uncaught_propagates :
    (∀ (env : Option String) (e : String),
      listModelsRun env (Except.error e) = (listerHeader, Except.error e)) ∧
    (∀ (env : Option String) (e : String) (pre : List ModelDescriptor)
        (post : List (Except String ModelDescriptor)),
      listModelsRun env (Except.ok (pre.map Except.ok ++ Except.error e :: post)) =
        (listerHeader ++ ((pre.filter supportsGenerateContent).map modelBlock).flatten,
         Except.error e)) := by
  constructor
  · intro env e
    rfl
  · intro env e pre post
    simp [listModelsRun, listerLoop_mid_error]

/-- Claim C10: the header line and one delimiter are printed unconditionally
before the catalog is enumerated, and a catalog with zero matching models
yields exactly those two printed lines and no blocks. -/
theorem lister_header_unconditional (env : Option String)
    (catalog : Except String (List (Except String ModelDescriptor)))
    (models : List ModelDescriptor)
    (hnone : ∀ m ∈ models, supportsGenerateContent m = false) :
    (printedLines (listModelsRun env catalog).1).take 2 = ["Available models:", delim] ∧
    printedLines (listModelsRun env (Except.ok (models.map Except.ok))).1 =
      ["Available models:", delim] := by
  have hf : models.filter supportsGenerateContent = [] := by
    rw [List.filter_eq_nil_iff]
    intro m hm
    simp [hnone m hm]
  constructor
  · cases catalog with
    | error e => rfl
    | ok items =>
        simp [listModelsRun, printedLines, listerHeader, List.take]
  · simp [listModelsRun, listerLoop_map_ok, hf, printedLines, listerHeader]

theorem lister_header_unconditional_witness :
    (printedLines (listModelsRun none (Except.ok [])).1).take 2 =
      ["Available models:", delim] ∧
    printedLines (listModelsRun none
        (Except.ok (([⟨"models/embedding-001", "Embedding 001", ["embedContent"]⟩] :
          List ModelDescriptor).map Except.ok))).1 =
      ["Available models:", delim] :=
  lister_header_unconditional none (Except.ok [])
    [⟨"models/embedding-001", "Embedding 001", ["embedContent"]⟩] (by decide)

end TandaChat
